import Mathlib

/-
Shallow embedding of the pomobar-rs daemon:
  - src/models.rs  : the typed Pomodoro state machine (states, transitions,
    accessors, the waybar view projection, desktop notifications);
  - src/bin/server.rs : the single-threaded event reducer (Toggle / Reset /
    Status / Tick) and the per-connection command handler.

Modelling conventions:
  - `chrono::NaiveDateTime` instants and `chrono::Duration` (`TimeDelta`)
    values are embedded as `Int`, measured in milliseconds.  Every function
    that reads `Local::now()` in Rust takes the current instant `now : Int`
    as an explicit argument.
  - `cycles : u32` is embedded as `Nat`; the `+ 1` in `Work::finish` is the
    u32 addition, which wraps modulo 2 ^ 32 (release-profile semantics; a
    debug build would abort at the same boundary instead of wrapping).
  - `Pomobar<S>` is a single-field wrapper struct (`{ state: S }`); the
    dispatcher variants below carry the inner state directly.  The wrapper
    only matters for serde serialization, where its one field named `state`
    is reproduced explicitly.
  - Fallible operations (`checked_sub(..).unwrap()`, `show().unwrap()`)
    return `Option`, with `none` standing for the panic.
-/

-- ===== Time model (chrono) =====

def Duration.minutes (m : Int) : Int := m * 60000

def Duration.seconds (s : Int) : Int := s * 1000

def Duration.zero : Int := 0

/-- `chrono::Duration::num_seconds`: whole seconds, truncated toward zero. -/
def Duration.num_seconds (d : Int) : Int := Int.tdiv d 1000

/-- `chrono::Duration::num_minutes`: whole minutes, truncated toward zero. -/
def Duration.num_minutes (d : Int) : Int := Int.tdiv (Duration.num_seconds d) 60

/-- `chrono::Duration::checked_sub`: `none` when the difference leaves the
representable `Duration` range (about plus or minus `i64::MAX` milliseconds). -/
def Duration.checked_sub (a b : Int) : Option Int :=
  if -(2 ^ 63 - 1) ≤ a - b ∧ a - b ≤ 2 ^ 63 - 1 then some (a - b) else none

-- ===== State structs (src/models.rs) =====

def u32_size : Nat := 4294967296

structure Work where
  started_at : Int
  cycles : Nat
deriving DecidableEq

structure Paused where
  remaining : Int
  cycles : Nat
deriving DecidableEq

structure ShortBreak where
  started_at : Int
  cycles : Nat
deriving DecidableEq

structure LongBreak where
  started_at : Int
  cycles : Nat
deriving DecidableEq

/-- `TimedState::duration` for `Work`. -/
def Work.duration : Int := Duration.minutes 25

/-- `TimedState::duration` for `ShortBreak`. -/
def ShortBreak.duration : Int := Duration.minutes 5

/-- `TimedState::duration` for `LongBreak`. -/
def LongBreak.duration : Int := Duration.minutes 15

/-- `PomobarDispatcher` from src/models.rs; each Rust variant wraps
`Pomobar<S>`, carried here as the bare state payload (`Idle` is a unit
struct, so its variant carries nothing). -/
inductive PomobarDispatcher where
  | Idle : PomobarDispatcher
  | Work : Work → PomobarDispatcher
  | Paused : Paused → PomobarDispatcher
  | ShortBreak : ShortBreak → PomobarDispatcher
  | LongBreak : LongBreak → PomobarDispatcher
deriving DecidableEq

-- ===== Transitions (src/models.rs) =====

/-- `Pomobar<Idle>::start` (the notification side effect is modelled
separately; see `send_notification`). -/
def Idle.start (now : Int) : Work :=
  { started_at := now, cycles := 0 }

/-- `Pomobar<Work>::pause`. -/
def Work.pause (s : Work) (now : Int) : Paused :=
  let elapsed := now - s.started_at
  let remaining := Work.duration - elapsed
  { remaining := if remaining > Duration.zero then remaining else Duration.zero,
    cycles := s.cycles }

/-- `Pomobar<Work>::finish`: increments `cycles` (u32 wrap-around) and picks
the break kind with `is_multiple_of(4)`. -/
def Work.finish (s : Work) (now : Int) : PomobarDispatcher :=
  let new_cycles := (s.cycles + 1) % u32_size
  if new_cycles % 4 = 0 then
    PomobarDispatcher.LongBreak { started_at := now, cycles := new_cycles }
  else
    PomobarDispatcher.ShortBreak { started_at := now, cycles := new_cycles }

/-- `Pomobar<Paused>::resume`: reconstructs a start time that keeps the
original end time. -/
def Paused.resume (s : Paused) (now : Int) : Work :=
  { started_at := now - (Duration.minutes 25 - s.remaining), cycles := s.cycles }

/-- `Pomobar<ShortBreak>::finish`. -/
def ShortBreak.finish (s : ShortBreak) (now : Int) : Work :=
  { started_at := now, cycles := s.cycles }

/-- `Pomobar<LongBreak>::finish`. -/
def LongBreak.finish (s : LongBreak) (now : Int) : Work :=
  { started_at := now, cycles := s.cycles }

-- ===== Accessors (src/models.rs) =====

/-- `PomobarDispatcher::get_remaining_time`. -/
def PomobarDispatcher.get_remaining_time (s : PomobarDispatcher) (now : Int) : Int :=
  match s with
  | .Work p =>
      let elapsed := now - p.started_at
      let remaining := Work.duration - elapsed
      if remaining < Duration.zero then Duration.zero else remaining
  | .Paused p => p.remaining
  | .ShortBreak p =>
      let elapsed := now - p.started_at
      let remaining := ShortBreak.duration - elapsed
      if remaining < Duration.zero then Duration.zero else remaining
  | .LongBreak p =>
      let elapsed := now - p.started_at
      let remaining := LongBreak.duration - elapsed
      if remaining < Duration.zero then Duration.zero else remaining
  | .Idle => Duration.minutes 25

/-- `PomobarDispatcher::get_state_name`. -/
def PomobarDispatcher.get_state_name (s : PomobarDispatcher) : String :=
  match s with
  | .Idle => "idle"
  | .Work _ => "work"
  | .Paused _ => "paused"
  | .ShortBreak _ => "short_break"
  | .LongBreak _ => "long_break"

/-- `PomobarDispatcher::get_cycles`. -/
def PomobarDispatcher.get_cycles (s : PomobarDispatcher) : Nat :=
  match s with
  | .Idle => 0
  | .Work p => p.cycles
  | .Paused p => p.cycles
  | .ShortBreak p => p.cycles
  | .LongBreak p => p.cycles

-- ===== View projection (src/models.rs `to_view`) =====

/-- Rust `format!` with the `{:02}` width-2 zero-pad specifier. -/
def format02 (n : Int) : String :=
  if 0 ≤ n ∧ n < 10 then "0" ++ toString n else toString n

/-- `StatusView` from src/models.rs (`class` is a Lean keyword, kept as `cls`). -/
structure StatusView where
  alt : String
  cls : String
  text : String
  tooltip : String
deriving DecidableEq

/-- `PomobarDispatcher::to_view`; `none` models the `checked_sub(..).unwrap()`
panic path. -/
def PomobarDispatcher.to_view (s : PomobarDispatcher) (now : Int) : Option StatusView :=
  let mins := Duration.num_minutes (s.get_remaining_time now)
  match Duration.checked_sub (s.get_remaining_time now) (Duration.minutes mins) with
  | none => none
  | some d =>
      let secs := Duration.num_seconds d
      some { alt := s.get_state_name
             cls := s.get_state_name
             text := format02 mins ++ ":" ++ format02 secs
             tooltip := "Completed " ++ toString s.get_cycles ++ " pomodoros." }

-- ===== Event reducer (src/bin/server.rs main loop) =====

/-- `ServerEvent` from src/bin/server.rs; the reply sink carried by `Status`
is irrelevant to the state transition and is dropped here. -/
inductive ServerEvent where
  | Toggle : ServerEvent
  | Reset : ServerEvent
  | Status : ServerEvent
  | Tick : ServerEvent
deriving DecidableEq

/-- One iteration of the reducer loop in `main`, at current instant `now`. -/
def serverStep (s : PomobarDispatcher) (e : ServerEvent) (now : Int) : PomobarDispatcher :=
  match e with
  | .Toggle =>
      match s with
      | .Idle => PomobarDispatcher.Work (Idle.start now)
      | .Work p => PomobarDispatcher.Paused (p.pause now)
      | .Paused p => PomobarDispatcher.Work (p.resume now)
      | .ShortBreak _ => s
      | .LongBreak _ => s
  | .Reset => PomobarDispatcher.Idle
  | .Status => s
  | .Tick =>
      if s.get_remaining_time now = Duration.seconds 0 then
        match s with
        | .Work p => p.finish now
        | .ShortBreak p => PomobarDispatcher.Work (p.finish now)
        | .LongBreak p => PomobarDispatcher.Work (p.finish now)
        | _ => s
      else s

/-- Dispatcher states reachable from the daemon's initial `Idle` state under
arbitrary event sequences, each step observing an arbitrary clock instant. -/
inductive Reachable : PomobarDispatcher → Prop where
  | init : Reachable PomobarDispatcher.Idle
  | step (s : PomobarDispatcher) (e : ServerEvent) (now : Int) :
      Reachable s → Reachable (serverStep s e now)

-- ===== Connection handler (src/bin/server.rs socket listener task) =====

/-- What the per-connection handler does with the bytes it read. -/
inductive ConnAction where
  | emitToggle : ConnAction
  | emitReset : ConnAction
  | statusQuery : ConnAction
  | ignored : ConnAction
deriving DecidableEq

/-- The socket listener task: `input` is the byte string read from the
connection (`n = input.length`); the body runs only `if n > 0`, and the Rust
`match` on the string is a chain of equality tests. -/
def handleConnection (input : String) : ConnAction :=
  if input.length > 0 then
    if input = "toggle" then ConnAction.emitToggle
    else if input = "reset" then ConnAction.emitReset
    else ConnAction.statusQuery
  else ConnAction.ignored

-- ===== Status reply serialization (serde, `#[serde(tag = "status")]`) =====

inductive Json where
  | null : Json
  | str : String → Json
  | num : Int → Json
  | obj : List (String × Json) → Json

/-- serde's variant identifier for each `PomobarDispatcher` variant (no
`rename_all` attribute is present, so the Rust identifiers are used
verbatim as the `status` tag values). -/
def variantTag (s : PomobarDispatcher) : String :=
  match s with
  | .Idle => "Idle"
  | .Work _ => "Work"
  | .Paused _ => "Paused"
  | .ShortBreak _ => "ShortBreak"
  | .LongBreak _ => "LongBreak"

/-- Serialization of the inner state `S` of `Pomobar<S>`: derived structs
serialize field by field; the unit struct `Idle` serializes as `null`.
`renderTime` and `renderDur` abstract chrono's serde rendering of
`NaiveDateTime` and `Duration` leaf values. -/
def serializeInner (renderTime : Int → Json) (renderDur : Int → Json)
    (s : PomobarDispatcher) : Json :=
  match s with
  | .Idle => Json.null
  | .Work p => Json.obj [("started_at", renderTime p.started_at), ("cycles", Json.num p.cycles)]
  | .Paused p => Json.obj [("remaining", renderDur p.remaining), ("cycles", Json.num p.cycles)]
  | .ShortBreak p =>
      Json.obj [("started_at", renderTime p.started_at), ("cycles", Json.num p.cycles)]
  | .LongBreak p =>
      Json.obj [("started_at", renderTime p.started_at), ("cycles", Json.num p.cycles)]

/-- `serde_json::to_string(&pomodoro)` for the internally tagged enum: each
variant is a newtype around `Pomobar<S>`, a struct with the single field
`state`, so the serialized value is that struct's map with the `status` tag
injected: `\x7b "status": <variant>, "state": <inner> \x7d`. -/
def serializeDispatcher (renderTime : Int → Json) (renderDur : Int → Json)
    (s : PomobarDispatcher) : Json :=
  Json.obj [("status", Json.str (variantTag s)),
            ("state", serializeInner renderTime renderDur s)]

/-- The reply sent for a `Status` event in the reducer loop. -/
def statusReply (renderTime : Int → Json) (renderDur : Int → Json)
    (s : PomobarDispatcher) : Json :=
  serializeDispatcher renderTime renderDur s

-- ===== Notifications (src/models.rs `send_notification`) =====

/-- `send_notification` builds a desktop notification and calls
`.show().unwrap()`.  The outcome of `show()` (an external effect) is the
parameter; `none` models the `unwrap` panic that aborts the daemon when
`show()` fails. -/
def send_notification (showResult : Except String Unit) : Option Unit :=
  match showResult with
  | .ok u => some u
  | .error _ => none

/-- The `Toggle`-from-`Idle` transition with its notification effect
included: `Pomobar<Idle>::start` runs `send_notification` first, so the
successor state is produced only if that call returns. -/
def toggleFromIdle (showResult : Except String Unit) (now : Int) :
    Option PomobarDispatcher :=
  match send_notification showResult with
  | some _ => some (PomobarDispatcher.Work (Idle.start now))
  | none => none

-- ===== Helper lemmas =====

/-- The `Paused` payload invariant maintained by the reducer: a stored
`remaining` is never negative, because `Work::pause` clamps it at creation. -/
def pausedNonneg (s : PomobarDispatcher) : Prop :=
  match s with
  | .Paused p => 0 ≤ p.remaining
  | _ => True

lemma reachable_pausedNonneg {s : PomobarDispatcher} (h : Reachable s) : pausedNonneg s := by
  induction h with
  | init => trivial
  | step s e now _ ih =>
      cases e with
      | Toggle =>
          cases s with
          | Work p =>
              simp only [serverStep, pausedNonneg, Work.pause, Work.duration,
                Duration.minutes, Duration.zero]
              split <;> omega
          | Idle => trivial
          | Paused p => trivial
          | ShortBreak p => exact ih
          | LongBreak p => exact ih
      | Reset => trivial
      | Status => exact ih
      | Tick =>
          cases s with
          | Idle => simpa [serverStep] using ih
          | Paused p =>
              simp only [serverStep]
              split <;> exact ih
          | Work p =>
              simp only [serverStep]
              split
              · simp only [Work.finish]
                split <;> trivial
              · exact ih
          | ShortBreak p =>
              simp only [serverStep]
              split <;> trivial
          | LongBreak p =>
              simp only [serverStep]
              split <;> trivial

lemma remaining_nonneg {s : PomobarDispatcher} (h : Reachable s) (now : Int) :
    0 ≤ s.get_remaining_time now := by
  have hp := reachable_pausedNonneg h
  cases s with
  | Idle => simp [PomobarDispatcher.get_remaining_time, Duration.minutes]
  | Paused p => exact hp
  | Work p =>
      simp only [PomobarDispatcher.get_remaining_time, Work.duration, Duration.minutes,
        Duration.zero]
      split <;> omega
  | ShortBreak p =>
      simp only [PomobarDispatcher.get_remaining_time, ShortBreak.duration, Duration.minutes,
        Duration.zero]
      split <;> omega
  | LongBreak p =>
      simp only [PomobarDispatcher.get_remaining_time, LongBreak.duration, Duration.minutes,
        Duration.zero]
      split <;> omega

-- ===== C1 =====

/-- Claim C1: for every `Work` state and every pair of wall-clock instants,
applying `pause()` (at `t1`) and then `resume()` (at `t2`) with no other
events interleaved yields a `Work` state whose `remaining_time()` at `t2`
equals the `remaining_time()` of the original `Work` state immediately
before `pause()` (at `t1`): the reconstructed `started_at` preserves the
original deadline.  In this millisecond-exact model the equality is exact,
which is within the claim's clock-resolution tolerance. -/
theorem C1_pause_resume_preserves_remaining (w : Work) (t1 t2 : Int) :
    PomobarDispatcher.get_remaining_time
        (PomobarDispatcher.Work ((w.pause t1).resume t2)) t2 =
      PomobarDispatcher.get_remaining_time (PomobarDispatcher.Work w) t1 := by
  simp only [Work.pause, Paused.resume, PomobarDispatcher.get_remaining_time,
    Work.duration, Duration.minutes, Duration.zero]
  split <;> split <;> omega

-- ===== C2 =====

def isLongBreak (s : PomobarDispatcher) : Bool :=
  match s with
  | .LongBreak _ => true
  | _ => false

def isShortBreak (s : PomobarDispatcher) : Bool :=
  match s with
  | .ShortBreak _ => true
  | _ => false

/-- A fresh-daemon run driven through the reducer: `toggle` at instant 0,
then a `Tick` at each successive deadline (work 25 min, short break 5 min),
up to the fourth work completion. -/
def freshRunEvents : List (ServerEvent × Int) :=
  [(ServerEvent.Toggle, 0),
   (ServerEvent.Tick, 1500000),
   (ServerEvent.Tick, 1800000),
   (ServerEvent.Tick, 3300000),
   (ServerEvent.Tick, 3600000),
   (ServerEvent.Tick, 5100000),
   (ServerEvent.Tick, 5400000),
   (ServerEvent.Tick, 6900000)]

/-- The daemon state after the first `k` events of `freshRunEvents`,
starting from the initial `Idle` state. -/
def freshRunAfter (k : Nat) : PomobarDispatcher :=
  (freshRunEvents.take k).foldl (fun s p => serverStep s p.1 p.2) PomobarDispatcher.Idle

/-- Claim C2 as stated is false at the u32 boundary: for the `Work` state
with `cycles = u32::MAX = 4294967295`, `finish()` does not produce a state
with cycle count `c + 1` (the u32 increment wraps to 0; a debug build would
abort instead). -/
theorem C2_counterexample :
    PomobarDispatcher.get_cycles (Work.finish ⟨0, 4294967295⟩ 0) ≠ 4294967295 + 1 := by
  decide

/-- Claim C2 (amended): for every `Work` state whose cycle count `c`
satisfies `c + 1 < 2 ^ 32` (no u32 overflow), `finish()` produces a state
with cycle count `c + 1`, and that state is `LongBreak` iff `c + 1` is a
multiple of 4, otherwise `ShortBreak`; moreover, starting from a fresh
`Idle` daemon, the 1st through 3rd work completions go to `ShortBreak`
(cycles 1, 2, 3) and the 4th goes to `LongBreak` (cycles 4). -/
theorem C2_finish_cycles (w : Work) (now : Int) (h : w.cycles + 1 < 4294967296) :
    PomobarDispatcher.get_cycles (w.finish now) = w.cycles + 1 ∧
    (isLongBreak (w.finish now) = true ↔ (w.cycles + 1) % 4 = 0) ∧
    (isShortBreak (w.finish now) = true ↔ ¬(w.cycles + 1) % 4 = 0) ∧
    (isShortBreak (freshRunAfter 2) = true ∧ (freshRunAfter 2).get_cycles = 1) ∧
    (isShortBreak (freshRunAfter 4) = true ∧ (freshRunAfter 4).get_cycles = 2) ∧
    (isShortBreak (freshRunAfter 6) = true ∧ (freshRunAfter 6).get_cycles = 3) ∧
    (isLongBreak (freshRunAfter 8) = true ∧ (freshRunAfter 8).get_cycles = 4) := by
  have hmod : (w.cycles + 1) % u32_size = w.cycles + 1 := Nat.mod_eq_of_lt h
  refine ⟨?_, ?_, ?_, by decide, by decide, by decide, by decide⟩
  · simp only [Work.finish, hmod]
    split <;> simp [PomobarDispatcher.get_cycles]
  · simp only [Work.finish, hmod]
    split <;> simp_all [isLongBreak]
  · simp only [Work.finish, hmod]
    split <;> simp_all [isShortBreak]

/-- Witness for `C2_finish_cycles` at the concrete `Work` state with
`cycles = 0`, finished at instant 5. -/
theorem C2_finish_cycles_witness :
    PomobarDispatcher.get_cycles (Work.finish ⟨0, 0⟩ 5) = 0 + 1 ∧
    (isShortBreak (Work.finish ⟨0, 0⟩ 5) = true ↔ ¬(0 + 1) % 4 = 0) := by
  have h := C2_finish_cycles ⟨0, 0⟩ 5 (by decide)
  exact ⟨h.1, h.2.2.1⟩

-- ===== C3 =====

/-- Claim C3: for every reachable timer state and every wall-clock instant,
`remaining_time()` is non-negative: the live computation for `Work`,
`ShortBreak` and `LongBreak` clamps at zero, the stored `Paused` remaining
is non-negative because `pause()` clamps it at creation, and `Idle` reports
the full 25-minute `Work` duration. -/
theorem C3_remaining_nonneg (s : PomobarDispatcher) (h : Reachable s) (now : Int) :
    0 ≤ s.get_remaining_time now ∧
    PomobarDispatcher.get_remaining_time PomobarDispatcher.Idle now = Duration.minutes 25 :=
  ⟨remaining_nonneg h now, rfl⟩

/-- Witness for `C3_remaining_nonneg` at the initial `Idle` state, instant 0. -/
theorem C3_remaining_nonneg_witness :
    0 ≤ PomobarDispatcher.get_remaining_time PomobarDispatcher.Idle 0 ∧
    PomobarDispatcher.get_remaining_time PomobarDispatcher.Idle 0 = Duration.minutes 25 :=
  C3_remaining_nonneg PomobarDispatcher.Idle Reachable.init 0

-- ===== C4 =====

def isTimed (s : PomobarDispatcher) : Bool :=
  match s with
  | .Work _ => true
  | .ShortBreak _ => true
  | .LongBreak _ => true
  | _ => false

/-- The live (pre-clamp) remaining time of a timed variant: nominal duration
minus elapsed wall-clock time (zero for `Idle` / `Paused`, unused there). -/
def rawRemaining (s : PomobarDispatcher) (now : Int) : Int :=
  match s with
  | .Work p => Work.duration - (now - p.started_at)
  | .ShortBreak p => ShortBreak.duration - (now - p.started_at)
  | .LongBreak p => LongBreak.duration - (now - p.started_at)
  | _ => 0

/-- The single `finish()` transition the `Tick` handler drives for each
timed variant (identity on `Idle` / `Paused`). -/
def applyFinish (s : PomobarDispatcher) (now : Int) : PomobarDispatcher :=
  match s with
  | .Work p => p.finish now
  | .ShortBreak p => PomobarDispatcher.Work (p.finish now)
  | .LongBreak p => PomobarDispatcher.Work (p.finish now)
  | _ => s

/-- Claim C4: a `Tick` checks the recomputed remaining time level-triggered:
on a timed variant (`Work`, `ShortBreak`, `LongBreak`) whose live remaining
time is at or below zero, exactly one `finish()` transition is driven, and a
second immediate `Tick` on the successor state does not also finish it (its
remaining time is freshly full); a `Tick` on `Idle` or `Paused` leaves the
state unchanged. -/
theorem C4_tick_level_triggered (s : PomobarDispatcher) (now : Int) :
    (isTimed s = true → rawRemaining s now ≤ 0 →
        serverStep s ServerEvent.Tick now = applyFinish s now ∧
        serverStep (applyFinish s now) ServerEvent.Tick now = applyFinish s now) ∧
    (isTimed s = false → serverStep s ServerEvent.Tick now = s) := by
  constructor
  · intro _ hraw
    cases s with
    | Idle => simp [isTimed] at *
    | Paused p => simp [isTimed] at *
    | Work p =>
        have hguard : PomobarDispatcher.get_remaining_time (PomobarDispatcher.Work p) now =
            Duration.seconds 0 := by
          simp only [PomobarDispatcher.get_remaining_time, Duration.seconds, Duration.zero]
          simp only [rawRemaining] at hraw
          split <;> omega
        refine ⟨by simp [serverStep, hguard, applyFinish], ?_⟩
        simp only [applyFinish, Work.finish]
        split
        · simp only [serverStep, PomobarDispatcher.get_remaining_time, LongBreak.duration,
            Duration.minutes, Duration.seconds, Duration.zero]
          norm_num
        · simp only [serverStep, PomobarDispatcher.get_remaining_time, ShortBreak.duration,
            Duration.minutes, Duration.seconds, Duration.zero]
          norm_num
    | ShortBreak p =>
        have hguard : PomobarDispatcher.get_remaining_time (PomobarDispatcher.ShortBreak p) now =
            Duration.seconds 0 := by
          simp only [PomobarDispatcher.get_remaining_time, Duration.seconds, Duration.zero]
          simp only [rawRemaining] at hraw
          split <;> omega
        refine ⟨by simp [serverStep, hguard, applyFinish], ?_⟩
        simp only [applyFinish, ShortBreak.finish, serverStep,
          PomobarDispatcher.get_remaining_time, Work.duration, Duration.minutes,
          Duration.seconds, Duration.zero]
        norm_num
    | LongBreak p =>
        have hguard : PomobarDispatcher.get_remaining_time (PomobarDispatcher.LongBreak p) now =
            Duration.seconds 0 := by
          simp only [PomobarDispatcher.get_remaining_time, Duration.seconds, Duration.zero]
          simp only [rawRemaining] at hraw
          split <;> omega
        refine ⟨by simp [serverStep, hguard, applyFinish], ?_⟩
        simp only [applyFinish, LongBreak.finish, serverStep,
          PomobarDispatcher.get_remaining_time, Work.duration, Duration.minutes,
          Duration.seconds, Duration.zero]
        norm_num
  · intro hnt
    cases s with
    | Idle =>
        simp only [serverStep]
        split <;> rfl
    | Paused p =>
        simp only [serverStep]
        split <;> rfl
    | Work p => simp [isTimed] at hnt
    | ShortBreak p => simp [isTimed] at hnt
    | LongBreak p => simp [isTimed] at hnt

/-- Witness for `C4_tick_level_triggered`: an expired `Work` state ticked at
its exact deadline finishes once and only once, and a `Tick` on `Idle` is a
no-op. -/
theorem C4_tick_level_triggered_witness :
    (serverStep (PomobarDispatcher.Work ⟨0, 0⟩) ServerEvent.Tick 1500000 =
        applyFinish (PomobarDispatcher.Work ⟨0, 0⟩) 1500000 ∧
      serverStep (applyFinish (PomobarDispatcher.Work ⟨0, 0⟩) 1500000)
          ServerEvent.Tick 1500000 =
        applyFinish (PomobarDispatcher.Work ⟨0, 0⟩) 1500000) ∧
    serverStep PomobarDispatcher.Idle ServerEvent.Tick 0 = PomobarDispatcher.Idle :=
  ⟨(C4_tick_level_triggered (PomobarDispatcher.Work ⟨0, 0⟩) 1500000).1 (by decide) (by decide),
   (C4_tick_level_triggered PomobarDispatcher.Idle 0).2 (by decide)⟩

-- ===== C5 =====

/-- Claim C5: for every dispatcher state in the `ShortBreak` or `LongBreak`
variant, processing a `Toggle` event leaves the state entirely unchanged:
same variant, same `started_at`, and same cycle count. -/
theorem C5_toggle_break_noop (p : ShortBreak) (q : LongBreak) (now : Int) :
    serverStep (PomobarDispatcher.ShortBreak p) ServerEvent.Toggle now =
        PomobarDispatcher.ShortBreak p ∧
    serverStep (PomobarDispatcher.LongBreak q) ServerEvent.Toggle now =
        PomobarDispatcher.LongBreak q :=
  ⟨rfl, rfl⟩

-- ===== C6 =====

/-- Claim C6: for every dispatcher state, processing a `Reset` event
unconditionally replaces it with a fresh `Idle` state whose cycle count
reads as 0, regardless of the prior variant or prior `cycles` value. -/
theorem C6_reset (s : PomobarDispatcher) (now : Int) :
    serverStep s ServerEvent.Reset now = PomobarDispatcher.Idle ∧
    PomobarDispatcher.get_cycles PomobarDispatcher.Idle = 0 :=
  ⟨rfl, rfl⟩

-- ===== C7 =====

/-- Claim C7 as stated is false on the code: serde's internally tagged
serialization (no `rename_all` attribute) uses the Rust variant identifiers
as `status` values, so `Idle` serializes with `status = "Idle"` — not one of
`idle|work|paused|short_break|long_break` — and with the extra `state` field
(`null` for the unit struct); a `Work` reply carries `started_at` and
`cycles` nested under `state`, not at top level. -/
theorem C7_counterexample :
    serializeDispatcher Json.num Json.num PomobarDispatcher.Idle =
        Json.obj [("status", Json.str "Idle"), ("state", Json.null)] ∧
    "Idle" ∉ (["idle", "work", "paused", "short_break", "long_break"] : List String) ∧
    serializeDispatcher Json.num Json.num (PomobarDispatcher.Work ⟨0, 0⟩) =
        Json.obj [("status", Json.str "Work"),
          ("state", Json.obj [("started_at", Json.num 0), ("cycles", Json.num 0)])] :=
  ⟨rfl, by decide, rfl⟩

/-- Claim C7 (amended): the status reply is a JSON object with exactly two
top-level fields: a `status` discriminator taking the Rust variant
identifier (`Idle|Work|Paused|ShortBreak|LongBreak`) and a `state` field
holding the variant payload — `started_at` and `cycles` for
`Work`/`ShortBreak`/`LongBreak`, `remaining` and `cycles` for `Paused`, and
`null` for `Idle`. -/
theorem C7_wire_shape (rt rd : Int → Json) (s : PomobarDispatcher) :
    statusReply rt rd s =
      Json.obj [("status", Json.str (variantTag s)),
                ("state", serializeInner rt rd s)] ∧
    (variantTag s = "Idle" ∨ variantTag s = "Work" ∨ variantTag s = "Paused" ∨
      variantTag s = "ShortBreak" ∨ variantTag s = "LongBreak") ∧
    (s = PomobarDispatcher.Idle → serializeInner rt rd s = Json.null) ∧
    (∀ p, s = PomobarDispatcher.Work p →
        serializeInner rt rd s =
          Json.obj [("started_at", rt p.started_at), ("cycles", Json.num p.cycles)]) ∧
    (∀ p, s = PomobarDispatcher.Paused p →
        serializeInner rt rd s =
          Json.obj [("remaining", rd p.remaining), ("cycles", Json.num p.cycles)]) ∧
    (∀ p, s = PomobarDispatcher.ShortBreak p →
        serializeInner rt rd s =
          Json.obj [("started_at", rt p.started_at), ("cycles", Json.num p.cycles)]) ∧
    (∀ p, s = PomobarDispatcher.LongBreak p →
        serializeInner rt rd s =
          Json.obj [("started_at", rt p.started_at), ("cycles", Json.num p.cycles)]) := by
  refine ⟨rfl, ?_, ?_, ?_, ?_, ?_, ?_⟩
  · cases s <;> simp [variantTag]
  · rintro rfl; rfl
  · rintro p rfl; rfl
  · rintro p rfl; rfl
  · rintro p rfl; rfl
  · rintro p rfl; rfl

/-- Witness for `C7_wire_shape` at the `Idle` state with concrete leaf
renderers. -/
theorem C7_wire_shape_witness :
    statusReply Json.num Json.num PomobarDispatcher.Idle =
      Json.obj [("status", Json.str (variantTag PomobarDispatcher.Idle)),
                ("state", serializeInner Json.num Json.num PomobarDispatcher.Idle)] ∧
    serializeInner Json.num Json.num PomobarDispatcher.Idle = Json.null :=
  ⟨(C7_wire_shape Json.num Json.num PomobarDispatcher.Idle).1,
   (C7_wire_shape Json.num Json.num PomobarDispatcher.Idle).2.2.1 rfl⟩

-- ===== C8 =====

/-- Claim C8 as stated is false on the code: the connection handler body
runs only when the read returned at least one byte, so empty input is
dropped with no event and no reply, not treated as a status query (which
the literal token `status` does receive). -/
theorem C8_counterexample :
    handleConnection "" ≠ ConnAction.statusQuery ∧
    handleConnection "" = ConnAction.ignored ∧
    handleConnection "status" = ConnAction.statusQuery := by
  refine ⟨by decide, by decide, by decide⟩

/-- Claim C8 (amended): every NONEMPTY command token that is not exactly
`toggle` or `reset` is treated as a status query and receives the same
reply payload as the literal token `status`; nonempty malformed commands
are never rejected.  Empty input is the one exception: the handler ignores
it entirely (no event, no reply). -/
theorem C8_lenient_fallback (cmd : String) (h0 : cmd ≠ "") (h1 : cmd ≠ "toggle")
    (h2 : cmd ≠ "reset") :
    handleConnection cmd = ConnAction.statusQuery ∧
    handleConnection cmd = handleConnection "status" ∧
    handleConnection "" = ConnAction.ignored := by
  have hlen : 0 < cmd.length := by
    cases cmd with
    | mk data =>
        cases data with
        | nil => exact absurd rfl h0
        | cons c cs => simp [String.length]
  have hq : handleConnection cmd = ConnAction.statusQuery := by
    simp [handleConnection, hlen, h1, h2]
  exact ⟨hq, by rw [hq]; decide, by decide⟩

/-- Witness for `C8_lenient_fallback` at the unrecognized token `hello`. -/
theorem C8_lenient_fallback_witness :
    handleConnection "hello" = ConnAction.statusQuery ∧
    handleConnection "hello" = handleConnection "status" ∧
    handleConnection "" = ConnAction.ignored :=
  C8_lenient_fallback "hello" (by decide) (by decide) (by decide)

-- ===== C9 =====

/-- Claim C9 is the intended behavior, but the code contradicts it:
`send_notification` calls `.show().unwrap()`, so a notification-delivery
failure panics and aborts the daemon instead of being ignored — the
transition does not complete with its successor state (the spec itself
flags this unwrap as a defect).  On success the same transition completes
normally. -/
theorem C9_notification_failure_aborts :
    send_notification (Except.error "notification daemon unavailable") = none ∧
    toggleFromIdle (Except.error "notification daemon unavailable") 0 = none ∧
    toggleFromIdle (Except.ok ()) 0 =
      some (PomobarDispatcher.Work (Idle.start 0)) :=
  ⟨rfl, rfl, rfl⟩

-- ===== C10 =====

/-- Claim C10: for every reachable dispatcher state (where
`remaining_time()` is non-negative), `to_view()` does not abort: the
`checked_sub` of whole minutes from the remaining duration always returns
`Some`, and the produced text is `MM:SS` — the zero-padded whole minutes,
a colon, and a zero-padded seconds component in the range 0 to 59. -/
theorem C10_to_view_total (s : PomobarDispatcher) (now : Int) (h : Reachable s) :
    ∃ v : StatusView, s.to_view now = some v ∧
      ∃ mins secs : Int, 0 ≤ mins ∧ 0 ≤ secs ∧ secs ≤ 59 ∧
        v.text = format02 mins ++ ":" ++ format02 secs := by
  have hrem : 0 ≤ s.get_remaining_time now := remaining_nonneg h now
  set r := s.get_remaining_time now with hr
  have h1000 : Int.tdiv r 1000 = r / 1000 := Int.tdiv_eq_ediv hrem (by decide)
  have hq : 0 ≤ r / 1000 := Int.ediv_nonneg hrem (by decide)
  have h60 : Int.tdiv (r / 1000) 60 = r / 1000 / 60 := Int.tdiv_eq_ediv hq (by decide)
  have hmins : Duration.num_minutes r = r / 1000 / 60 := by
    rw [Duration.num_minutes, Duration.num_seconds, h1000, h60]
  have hd : 0 ≤ r - Duration.num_minutes r * 60000 ∧
      r - Duration.num_minutes r * 60000 < 60000 := by
    rw [hmins]
    omega
  have hcs : Duration.checked_sub r (Duration.minutes (Duration.num_minutes r)) =
      some (r - Duration.num_minutes r * 60000) := by
    rw [Duration.checked_sub, Duration.minutes, if_pos]
    omega
  have hsecs : Duration.num_seconds (r - Duration.num_minutes r * 60000) =
      (r - Duration.num_minutes r * 60000) / 1000 := by
    rw [Duration.num_seconds]
    exact Int.tdiv_eq_ediv hd.1 (by decide)
  refine ⟨{ alt := s.get_state_name, cls := s.get_state_name,
            text := format02 (Duration.num_minutes r) ++ ":" ++
              format02 (Duration.num_seconds (r - Duration.num_minutes r * 60000)),
            tooltip := "Completed " ++ toString s.get_cycles ++ " pomodoros." }, ?_,
    Duration.num_minutes r,
    Duration.num_seconds (r - Duration.num_minutes r * 60000), ?_, ?_, ?_, rfl⟩
  · rw [PomobarDispatcher.to_view, ← hr, hcs]
  · rw [hmins]
    exact Int.ediv_nonneg hq (by decide)
  · rw [hsecs]
    omega
  · rw [hsecs, hmins]
    omega

/-- Witness for `C10_to_view_total` at the initial `Idle` state, instant 0
(whose view text is the full `25:00`). -/
theorem C10_to_view_total_witness :
    ∃ v : StatusView, PomobarDispatcher.to_view PomobarDispatcher.Idle 0 = some v ∧
      ∃ mins secs : Int, 0 ≤ mins ∧ 0 ≤ secs ∧ secs ≤ 59 ∧
        v.text = format02 mins ++ ":" ++ format02 secs :=
  C10_to_view_total PomobarDispatcher.Idle 0 Reachable.init
